import Mathlib

/-!
Shallow embedding of `swap-worktree` (src/main.rs), a CLI that swaps the
checked-out branches (and stashed working-tree state) between two Git
worktrees.  The external `git` tool is modelled as an oracle (`Env.exec`)
mapping the history of issued calls and the next call to a textual
response; the program itself is embedded as explicit state-passing code
over a state that records the trace of issued subprocess calls and the
lines printed to the diagnostic stream (stderr).  Debug logging
(`debug_log!`) only prints to stdout and has no control-flow effect, so it
is modelled as a no-op.
-/

set_option maxRecDepth 200000

namespace SwapWorktree

/-- Exit status of a subprocess, as in `std::process::ExitStatus`. -/
structure ExitStatus where
  code : Int
deriving DecidableEq, Repr

/-- Rust's `ExitStatus::success()`: exit code zero. -/
def ExitStatus.success (s : ExitStatus) : Bool := s.code == 0

/-- `struct GitOutput` from main.rs: captured stdout, stderr, exit status
and a rendering of the command line. -/
structure GitOutput where
  stdout : String
  stderr : String
  status : ExitStatus
  command : String
deriving DecidableEq, Repr

/-- `struct StashRecord` from main.rs. -/
structure StashRecord where
  hash : String
  reference : Option String
  branch : String
deriving DecidableEq, Repr

/-- One invocation of the external git tool: working directory and
argument vector. -/
structure Call where
  dir : Option String
  args : List String
deriving DecidableEq, Repr

/-- Observable execution state: the trace of subprocess calls issued so
far and the messages printed to stderr (`eprintln!`). -/
structure St where
  trace : List Call
  errLog : List String
deriving DecidableEq, Repr

/-- The external world: the git executor plus the few filesystem probes
the program performs.  `exec` receives the history of already-issued
calls, so stateful behaviour of the repository can be modelled; a
`.error` result models an OS-level spawn failure (`Command::output()?`). -/
structure Env where
  exec : List Call → Call → Except String GitOutput
  pathExists : String → Bool
  isDir : String → Bool
  canonicalize : String → Except String String

/-- The effect monad of the embedded program: state passing over `St`
with string-typed errors (`Result<_, Box<dyn Error>>`).  The state is
preserved on error so that failing runs still expose their trace. -/
def M (α : Type) : Type := St → Except String α × St

def M.pure {α : Type} (a : α) : M α := fun s => (.ok a, s)

def M.bind {α β : Type} (x : M α) (f : α → M β) : M β := fun s =>
  match x s with
  | (.ok a, s1) => f a s1
  | (.error e, s1) => (.error e, s1)

def M.throw {α : Type} (e : String) : M α := fun s => (.error e, s)

/-- Run a computation and reify its failure, as Rust's
`if let Err(err) = ...` / `match result` patterns do. -/
def M.attempt {α : Type} (x : M α) : M (Except String α) := fun s =>
  match x s with
  | (.ok a, s1) => (.ok (.ok a), s1)
  | (.error e, s1) => (.ok (.error e), s1)

/-- `eprintln!`: append a line to the diagnostic stream. -/
def eprintLn (msg : String) : M Unit := fun s =>
  (.ok (), { s with errLog := s.errLog ++ [msg] })

/-! ### String helpers (models of the Rust `str` methods used) -/

/-- Model of `str::strip_prefix` on character lists: returns the suffix
after the pattern when the pattern is a prefix. -/
def stripPre : List Char → List Char → Option (List Char)
  | [], s => some s
  | _ :: _, [] => none
  | p :: ps, c :: cs => if p = c then stripPre ps cs else none

/-- Model of `str::trim`: drop whitespace from both ends. -/
def rustTrim (s : String) : String :=
  ⟨((s.data.dropWhile Char.isWhitespace).reverse.dropWhile Char.isWhitespace).reverse⟩

/-- Split a character list at every occurrence of `c` (keeping empty
segments), the building block of `str::lines`. -/
def splitChar (c : Char) : List Char → List (List Char)
  | [] => [[]]
  | a :: rest =>
    if a = c then [] :: splitChar c rest
    else
      match splitChar c rest with
      | [] => [[a]]
      | l :: ls => (a :: l) :: ls

/-- Strip one trailing carriage return, as `str::lines` does per line. -/
def stripCR (l : List Char) : List Char :=
  if l.getLast? = some '\r' then l.dropLast else l

/-- Model of Rust's `str::lines`: split on `'\n'`, drop the trailing
empty segment produced by a terminating newline, strip trailing `'\r'`. -/
def rustLines (s : String) : List String :=
  if s.data = [] then []
  else
    let parts := splitChar '\n' s.data
    let parts := if s.data.getLast? = some '\n' then parts.dropLast else parts
    parts.map (fun l => ⟨stripCR l⟩)

/-- Model of `str::split_once`: split at the first occurrence of `c`. -/
def splitOnceChar : List Char → Char → Option (List Char × List Char)
  | [], _ => none
  | a :: rest, c =>
    if a = c then some ([], rest)
    else (splitOnceChar rest c).map (fun pr => (a :: pr.1, pr.2))

/-- Boolean substring test (`pat` occurs contiguously in `s`). -/
def hasSub (pat : List Char) : List Char → Bool
  | [] => pat.isEmpty
  | c :: rest => (stripPre pat (c :: rest)).isSome || hasSub pat rest

/-- `describe_args`: render an argument vector separated by spaces. -/
def joinSp : List String → String
  | [] => ""
  | [a] => a
  | a :: rest => a ++ " " ++ joinSp rest

/-- A path is absolute when it starts with a slash (Unix model of
`Path::is_absolute`). -/
def isAbsolute (p : String) : Bool :=
  match p.data with
  | [] => false
  | c :: _ => c = '/'

/-- `Path::parent` modelled on slash-separated strings: drop the last
component.  Used only for the diagnostic-only repository root. -/
def parentPath (p : String) : Option String :=
  match p.data.reverse.dropWhile (fun c => ¬ (c = '/')) with
  | [] => none
  | _ :: rest => some ⟨rest.reverse⟩

/-! ### Command executor (`run_git`, `run_git_success`, `combined_output`) -/

/-- `run_git`: issue a call to the external tool, recording it in the
trace, and attach the rendered command line to the output. -/
def run_git (env : Env) (dir : Option String) (args : List String) : M GitOutput :=
  fun s =>
    match env.exec s.trace ⟨dir, args⟩ with
    | .ok o => (.ok { o with command := joinSp args },
        { s with trace := s.trace ++ [⟨dir, args⟩] })
    | .error e => (.error e, { s with trace := s.trace ++ [⟨dir, args⟩] })

/-- `combined_output`: the trimmed stdout and trimmed stderr joined by a
newline when both are nonempty. -/
def combined_output (o : GitOutput) : String :=
  let a := rustTrim o.stdout
  let b := rustTrim o.stderr
  let combined := if a = "" then "" else a
  if b = "" then combined
  else if combined = "" then b
  else combined ++ "\n" ++ b

/-- `run_git_success`: like `run_git` but a non-zero exit status becomes
an error carrying the context line, the command and both streams. -/
def run_git_success (env : Env) (dir : Option String) (args : List String)
    (context : String) : M GitOutput :=
  M.bind (run_git env dir args) fun o => fun s =>
    if o.status.success then (.ok o, s)
    else (.error (context ++ "\nCommand: git " ++ o.command ++ "\nstdout: "
        ++ rustTrim o.stdout ++ "\nstderr: " ++ rustTrim o.stderr), s)

/-! ### Resolver (`canonicalize_dir`, `ensure_git_worktree`,
`determine_repo_root`, `current_branch`) -/

def canonicalize_dir (env : Env) (path : String) : M String := fun s =>
  if ¬ env.pathExists path then
    (.error ("Destination directory '" ++ path ++ "' does not exist."), s)
  else if ¬ env.isDir path then
    (.error ("'" ++ path ++ "' is not a directory."), s)
  else
    match env.canonicalize path with
    | .ok p => (.ok p, s)
    | .error e => (.error e, s)

/-- Lift a bare `canonicalize()?` call (used again in `run` for the
identity check). -/
def canonM (env : Env) (p : String) : M String := fun s =>
  (env.canonicalize p, s)

def ensure_git_worktree (env : Env) (dir : String) : M Unit :=
  M.bind (run_git_success env (some dir) ["rev-parse", "--is-inside-work-tree"]
      "Failed to determine whether destination is a git worktree.") fun o =>
    if rustTrim o.stdout = "true" then M.pure ()
    else M.throw ("'" ++ dir ++ "' is not inside a git worktree.")

def determine_repo_root (env : Env) (dir : String) : M String :=
  M.bind (run_git_success env (some dir) ["rev-parse", "--git-common-dir"]
      "Failed to determine repository root.") fun o =>
    let gitDir := rustTrim o.stdout
    let gitDir := if isAbsolute gitDir then gitDir else dir ++ "/" ++ gitDir
    M.pure (match parentPath gitDir with
      | some p => p
      | none => dir)

def current_branch (env : Env) (dir : String) : M String :=
  M.bind (run_git_success env (some dir) ["symbolic-ref", "--short", "HEAD"]
      "Failed to determine destination branch.") fun o =>
    let branch := rustTrim o.stdout
    if branch = "" then
      M.throw ("Could not determine branch for '" ++ dir ++ "'.")
    else M.pure branch

/-! ### Locator (`find_worktree_for_branch`, `parse_worktree_branches`) -/

/-- `normalize_path`: absolute paths stand alone, relative ones are
joined onto the base directory. -/
def normalize_path (base : String) (path : String) : String :=
  if isAbsolute path then path else base ++ "/" ++ path

/-- Strip the `refs/heads/` ref-namespace prefix when present. -/
def normBranch (t : String) : String :=
  match stripPre "refs/heads/".data t.data with
  | some r => ⟨r⟩
  | none => t

/-- One step of the porcelain record accumulator: a `worktree ` line sets
the path, a `branch ` line sets the (normalized) branch, anything else is
ignored. -/
def updateRec (acc : Option String × Option String) (line : String) :
    Option String × Option String :=
  match stripPre "worktree ".data line.data with
  | some rest => (some (rustTrim ⟨rest⟩), acc.2)
  | none =>
    match stripPre "branch ".data line.data with
    | some rest => (acc.1, some (normBranch (rustTrim ⟨rest⟩)))
    | none => acc

/-- The existence check performed on a located worktree path. -/
def checkPathE (env : Env) (dir branch path : String) : Except String String :=
  let pb := normalize_path dir path
  if env.pathExists pb then .ok pb
  else .error ("Source directory '" ++ pb ++ "' (for branch '" ++ branch
      ++ "') does not exist.")

/-- The duplicated check of main.rs (run at each blank line and once after
the loop): when the accumulated record's branch matches and a path was
seen, the loop returns with that path's check; otherwise it keeps
scanning. -/
def checkRec (env : Env) (dir branch : String)
    (acc : Option String × Option String) : Option (Except String String) :=
  if acc.2 = some branch then
    match acc.1 with
    | some path => some (checkPathE env dir branch path)
    | none => none
  else none

/-- The line loop of `find_worktree_for_branch`, including the
end-of-input check of the accumulated record. -/
def findLoop (env : Env) (dir branch : String) :
    List String → Option String × Option String → Except String String
  | [], acc =>
    (match checkRec env dir branch acc with
     | some r => r
     | none => .error ("Could not find worktree for branch '" ++ branch ++ "'."))
  | line :: rest, acc =>
    if rustTrim line = "" then
      match checkRec env dir branch acc with
      | some r => r
      | none => findLoop env dir branch rest (none, none)
    else findLoop env dir branch rest (updateRec acc line)

def find_worktree_for_branch (env : Env) (dir branch : String) : M String :=
  M.bind (run_git_success env (some dir) ["worktree", "list", "--porcelain"]
      "Failed to list worktrees.") fun o =>
    fun s => (findLoop env dir branch (rustLines o.stdout) (none, none), s)

/-- Insertion into a sorted duplicate-free list, the behaviour of
`BTreeSet::insert` followed by in-order iteration.  The comparison is
the lexicographic order on the underlying character lists, which
coincides with `<` on `String` (`String.lt_iff_toList_lt`). -/
def insertSorted (a : String) : List String → List String
  | [] => [a]
  | b :: l =>
    if a.data < b.data then a :: b :: l
    else if a = b then b :: l
    else b :: insertSorted a l

/-- The per-line branch extraction of `parse_worktree_branches`: a
`branch ` line whose trimmed remainder is nonempty yields the normalized
branch name. -/
def branchOf (line : String) : Option String :=
  match stripPre "branch ".data line.data with
  | none => none
  | some rest =>
    let t := rustTrim ⟨rest⟩
    if t = "" then none else some (normBranch t)

/-- `parse_worktree_branches`: collect every nonempty normalized branch
name into a `BTreeSet` and return its sorted contents. -/
def parse_worktree_branches (porcelain : String) : List String :=
  (rustLines porcelain).foldl
    (fun acc line =>
      match branchOf line with
      | none => acc
      | some b => insertSorted b acc)
    []

/-! ### Stash manager (`stash_worktree`, `find_stash_reference`,
`apply_and_drop_stash`, `drop_stash`) -/

/-- The loop of `find_stash_reference`: scan `stash list --format=%H:%gd`
lines for the entry whose commit hash matches. -/
def findRefLoop (hash : String) : List String → Option String
  | [] => none
  | line :: rest =>
    match splitOnceChar line.data ':' with
    | some pr =>
      if (⟨pr.1⟩ : String) = hash then some (rustTrim ⟨pr.2⟩)
      else findRefLoop hash rest
    | none => findRefLoop hash rest

def find_stash_reference (env : Env) (dir hash : String) : M (Option String) :=
  M.bind (run_git_success env (some dir) ["stash", "list", "--format=%H:%gd"]
      "Failed to list stashes.") fun o =>
    M.pure (findRefLoop hash (rustLines o.stdout))

/-- `stash_worktree`: push a stash of tracked and untracked changes; the
exact combined output "No local changes to save" is the no-snapshot
outcome; any other non-success output is a hard error; otherwise resolve
the stash hash and its positional reference. -/
def stash_worktree (env : Env) (dir branch : String) : M (Option StashRecord) :=
  let message := "swap-stash-" ++ branch
  M.bind (run_git env (some dir) ["stash", "push", "-u", "-m", message]) fun output =>
    let combined := combined_output output
    if rustTrim combined = "No local changes to save" then M.pure none
    else if ¬ output.status.success then
      M.throw ("Failed to create stash in '" ++ dir ++ "': " ++ combined)
    else
      M.bind (run_git_success env (some dir) ["rev-parse", "stash@{0}"]
          "Failed to determine stash SHA.") fun rev =>
        let hash := rustTrim rev.stdout
        M.bind (find_stash_reference env dir hash) fun reference =>
          M.pure (some ⟨hash, reference, branch⟩)

def detach_worktree (env : Env) (dir : String) (_branch : String) : M Unit :=
  M.bind (run_git_success env (some dir) ["switch", "--detach"]
      "Failed to detach worktree.") fun _ => M.pure ()

def switch_worktree (env : Env) (dir branch : String) : M Unit :=
  M.bind (run_git_success env (some dir) ["switch", branch]
      "Failed to switch worktree branch.") fun _ => M.pure ()

def drop_stash (env : Env) (dir reference : String) : M Unit :=
  M.bind (run_git env (some dir) ["stash", "drop", reference]) fun o =>
    if o.status.success then M.pure ()
    else M.throw ("git stash drop " ++ reference ++ " failed: "
        ++ combined_output o)

/-- `apply_and_drop_stash`: apply the snapshot by content hash; only on a
successful apply, and only when the positional reference is known, drop
it; every failure is a stderr warning, never an error. -/
def apply_and_drop_stash (env : Env) (dir : String) (_branch : String)
    (stash : Option StashRecord) : M Unit :=
  match stash with
  | some stash =>
    M.bind (M.attempt (run_git env (some dir) ["stash", "apply", stash.hash]))
      fun result =>
      match result with
      | .ok output =>
        if output.status.success then
          match stash.reference with
          | some reference =>
            M.bind (M.attempt (drop_stash env dir reference)) fun dr =>
              match dr with
              | .error err => eprintLn ("Warning: Failed to drop applied stash "
                  ++ reference ++ ": " ++ err)
              | .ok _ => M.pure ()
          | none => eprintLn ("Warning: Could not determine stash reference for "
              ++ stash.hash ++ ". The stash remains in the list.")
        else
          M.bind (eprintLn ("Warning: Failed to apply stash " ++ stash.hash
              ++ " to '" ++ dir ++ "'.\nOutput: " ++ combined_output output))
            fun _ =>
            eprintLn ("The stash has been kept. Please resolve manually in '"
                ++ dir ++ "'.")
      | .error err =>
        M.bind (eprintLn ("Warning: Failed to apply stash " ++ stash.hash
            ++ " to '" ++ dir ++ "': " ++ err)) fun _ =>
          eprintLn ("The stash has been kept. Please resolve manually in '"
              ++ dir ++ "'.")
  | none => M.pure ()

/-! ### Orchestrator (`run`) and entry point (`main`) -/

/-- The parsed command line. -/
structure Cli where
  debug : Bool
  destination_worktree_dir : String
  source_branch_name : String

/-- `run`: the swap protocol.  Validate, identity-check, capture both
stashes, detach both heads (with best-effort restore of the destination
when detaching the source fails), switch both heads to the swapped
branches (with the explicit critical-state message when the second switch
fails), then reapply each worktree's counterpart stash. -/
def run (env : Env) (cli : Cli) : M Unit :=
  let src_branch := cli.source_branch_name
  M.bind (canonicalize_dir env cli.destination_worktree_dir) fun dest_dir =>
  M.bind (ensure_git_worktree env dest_dir) fun _ =>
  M.bind (determine_repo_root env dest_dir) fun _repo_root =>
  M.bind (current_branch env dest_dir) fun dest_branch =>
  M.bind (find_worktree_for_branch env dest_dir src_branch) fun src_dir =>
  M.bind (canonM env dest_dir) fun dest_dir_canon =>
  M.bind (canonM env src_dir) fun src_dir_canon =>
  if dest_dir_canon = src_dir_canon then
    M.throw "Source and destination directories are the same. Nothing to swap."
  else
  M.bind (stash_worktree env dest_dir dest_branch) fun dest_stash =>
  M.bind (stash_worktree env src_dir src_branch) fun src_stash =>
  M.bind (detach_worktree env dest_dir dest_branch) fun _ =>
  M.bind (M.attempt (detach_worktree env src_dir src_branch)) fun d =>
  match d with
  | .error err =>
    M.bind (eprintLn ("Error: " ++ err)) fun _ =>
    M.bind (eprintLn ("Attempting to restore '" ++ dest_dir ++ "' to '"
        ++ dest_branch ++ "'...")) fun _ =>
    M.bind (M.attempt (run_git env (some dest_dir) ["switch", dest_branch]))
      fun _ =>
    M.throw "Failed to detach source worktree. Aborting."
  | .ok _ =>
  M.bind (switch_worktree env dest_dir src_branch) fun _ =>
  M.bind (M.attempt (switch_worktree env src_dir dest_branch)) fun sw =>
  match sw with
  | .error err =>
    M.throw ("Error: " ++ err ++ "\nCRITICAL STATE: '" ++ dest_dir
        ++ "' is on '" ++ src_branch ++ "', but '" ++ src_dir
        ++ "' is still detached.\nPlease manually run:\n  git -C '"
        ++ dest_dir ++ "' switch '" ++ src_branch ++ "'\n  git -C '"
        ++ src_dir ++ "' switch '" ++ dest_branch ++ "'")
  | .ok _ =>
  M.bind (apply_and_drop_stash env dest_dir src_branch src_stash) fun _ =>
  M.bind (apply_and_drop_stash env src_dir dest_branch dest_stash) fun _ =>
  M.pure ()

def initSt : St := ⟨[], []⟩

/-- `main`: run the protocol; on error print it to stderr and exit 1,
otherwise exit 0. -/
def mainRun (env : Env) (cli : Cli) : Nat × St :=
  match run env cli initSt with
  | (.ok _, s) => (0, s)
  | (.error e, s) => (1, { s with errLog := s.errLog ++ [e] })

/-! ### Record-level view of the porcelain parser (for C6)

The spec describes the worktree listing as a sequence of records; the
following definitions build that record sequence with the same per-line
update rule and compare the loop of `find_worktree_for_branch` against a
first-match lookup over the `(path, branch)` pairs of complete records. -/

/-- Split the line list into accumulated records, one per blank line,
plus the trailing accumulated record after input ends. -/
def recordsAux (acc : Option String × Option String) :
    List String → List (Option String × Option String)
  | [] => [acc]
  | line :: rest =>
    if rustTrim line = "" then acc :: recordsAux (none, none) rest
    else recordsAux (updateRec acc line) rest

/-- A record contributes a `(path, branch)` pair when both fields were
seen. -/
def pairOf : Option String × Option String → Option (String × String)
  | (some p, some b) => some (p, b)
  | _ => none

/-- First-match lookup over `(path, branch)` pairs: the first pair whose
branch equals the target wins and its path is existence-checked. -/
def lookupPairs (env : Env) (dir branch : String) :
    List (String × String) → Except String String
  | [] => .error ("Could not find worktree for branch '" ++ branch ++ "'.")
  | (p, b) :: rest =>
    if b = branch then checkPathE env dir branch p
    else lookupPairs env dir branch rest

/-- The `(path, branch)` pairs of all complete records of the listing. -/
def wtPairs (ls : List String) : List (String × String) :=
  (recordsAux (none, none) ls).filterMap pairOf

/-! ### Concrete scenario environments

Two worktrees sharing one repository: the destination `/wt/dest` on
branch `beta` and the source `/wt/src` on branch `alpha`; the CLI is
invoked as `swap-worktree /wt/dest alpha`.  The oracle's responses at
the interesting protocol steps are parameters, so one construction
serves the hard-failure scenarios of several claims. -/

def okOut (out : String) : GitOutput := ⟨out, "", ⟨0⟩, ""⟩

def failOut (msg : String) : GitOutput := ⟨"", msg, ⟨1⟩, ""⟩

def porcelainBase : String :=
  "worktree /wt/dest\nHEAD 1111\nbranch refs/heads/beta\n\nworktree /wt/src\nHEAD 2222\nbranch refs/heads/alpha\n"

/-- Oracle responses for the two-worktree repository; the six parameters
override, in order: the destination stash push, the source detach, the
restore switch of the destination, the forward switch of the
destination, the forward switch of the source, and the apply of the
source's stash inside the destination. -/
def mkExec (stashDestR detachSrcR restoreR switchDestR switchSrcR applyDestR :
    Except String GitOutput) (c : Call) : Except String GitOutput :=
  if c.args = ["rev-parse", "--is-inside-work-tree"] then .ok (okOut "true\n")
  else if c.args = ["rev-parse", "--git-common-dir"] then .ok (okOut "/repo/.git\n")
  else if c.args = ["symbolic-ref", "--short", "HEAD"] then .ok (okOut "beta\n")
  else if c.args = ["worktree", "list", "--porcelain"] then .ok (okOut porcelainBase)
  else if c.args = ["stash", "push", "-u", "-m", "swap-stash-beta"] then stashDestR
  else if c.args = ["stash", "push", "-u", "-m", "swap-stash-alpha"] then
    .ok (okOut "Saved working directory and index state On alpha: swap-stash-alpha\n")
  else if c.args = ["rev-parse", "stash@{0}"] then
    (if c.dir = some "/wt/dest" then .ok (okOut "1111a\n") else .ok (okOut "2222b\n"))
  else if c.args = ["stash", "list", "--format=%H:%gd"] then
    (if c.dir = some "/wt/dest" then .ok (okOut "1111a:stash@{0}\n")
     else .ok (okOut "2222b:stash@{0}\n"))
  else if c.args = ["switch", "--detach"] then
    (if c.dir = some "/wt/src" then detachSrcR else .ok (okOut ""))
  else if c.args = ["switch", "alpha"] then
    (if c.dir = some "/wt/dest" then switchDestR else .ok (okOut ""))
  else if c.args = ["switch", "beta"] then
    (if c.dir = some "/wt/src" then switchSrcR else restoreR)
  else if c.args = ["stash", "apply", "2222b"] then applyDestR
  else .ok (okOut "")

def mkEnv (stashDestR detachSrcR restoreR switchDestR switchSrcR applyDestR :
    Except String GitOutput) : Env where
  exec := fun _ c =>
    mkExec stashDestR detachSrcR restoreR switchDestR switchSrcR applyDestR c
  pathExists := fun _ => true
  isDir := fun _ => true
  canonicalize := fun p => .ok p

def savedDest : Except String GitOutput :=
  .ok (okOut "Saved working directory and index state On beta: swap-stash-beta\n")

def okE : Except String GitOutput := .ok (okOut "")

def cli0 : Cli := ⟨false, "/wt/dest", "alpha"⟩

/-- Everything succeeds. -/
def envHappy : Env := mkEnv savedDest okE okE okE okE okE

/-- The second switch (source worktree to the destination's branch)
fails: the critical-state scenario of the orchestrator. -/
def envCritical : Env := mkEnv savedDest okE okE okE (.ok (failOut "boom")) okE

/-- Detaching the source worktree fails after the destination was
detached; the restore switch of the destination answers `r`. -/
def envDetachFail (r : Except String GitOutput) : Env :=
  mkEnv savedDest (.ok (failOut "cannot detach")) r okE okE okE

/-- The first switch (destination worktree to the source branch) fails. -/
def envSwitchDestFail : Env :=
  mkEnv savedDest okE okE (.ok (failOut "no such branch")) okE okE

/-- The destination's stash push fails with a non-sentinel message. -/
def envStashFail : Env :=
  mkEnv (.ok (failOut "fatal: oops")) okE okE okE okE okE

/-- The destination's stash push answers the "No local changes to save"
sentinel (the no-snapshot outcome). -/
def envNoLocalChanges : Env :=
  mkEnv (.ok (okOut "No local changes to save")) okE okE okE okE okE

/-- The destination's stash push answers the sentinel with a non-zero
exit status. -/
def envSentinelNonZero : Env :=
  mkEnv (.ok ⟨"No local changes to save", "", ⟨1⟩, ""⟩) okE okE okE okE okE

/-- Applying the source's stash inside the destination fails; everything
else succeeds. -/
def envApplyFail : Env :=
  mkEnv savedDest okE okE okE okE (.ok (failOut "conflict: could not apply"))

/-- Environment where the worktree located for the source branch is the
destination directory itself. -/
def envSameDir : Env where
  exec := fun _ c =>
    if c.args = ["rev-parse", "--is-inside-work-tree"] then .ok (okOut "true\n")
    else if c.args = ["rev-parse", "--git-common-dir"] then .ok (okOut "/repo/.git\n")
    else if c.args = ["symbolic-ref", "--short", "HEAD"] then .ok (okOut "alpha\n")
    else if c.args = ["worktree", "list", "--porcelain"] then
      .ok (okOut "worktree /wt/dest\nHEAD 1111\nbranch refs/heads/alpha")
    else .ok (okOut "")
  pathExists := fun _ => true
  isDir := fun _ => true
  canonicalize := fun p => .ok p

/-! ### Observation helpers for the scenario theorems -/

/-- A message in the diagnostic log contains `pat` as a substring. -/
def errContains (st : St) (pat : String) : Bool :=
  st.errLog.any (fun m => hasSub pat.data m.data)

/-- Some issued call's argument vector starts with the given words. -/
def hasCallPre (st : St) (pre : List String) : Bool :=
  st.trace.any (fun c => decide (c.args.take pre.length = pre))

/-- The given exact call was issued. -/
def hasCall (st : St) (c : Call) : Bool :=
  st.trace.any (fun c2 => decide (c2 = c))

/-! ### Small rewriting lemmas -/

theorem status_set_command (o : GitOutput) (c : String) :
    ({ o with command := c } : GitOutput).status = o.status := rfl

theorem combined_output_set_command (o : GitOutput) (c : String) :
    combined_output { o with command := c } = combined_output o := rfl

theorem M.bind_ok {α β : Type} (x : M α) (f : α → M β) (s s1 : St) (a : α)
    (hx : x s = (.ok a, s1)) : (M.bind x f) s = f a s1 := by
  unfold M.bind
  rw [hx]

theorem run_git_ok (env : Env) (dir : Option String) (args : List String)
    (s : St) (o : GitOutput) (h : env.exec s.trace ⟨dir, args⟩ = .ok o) :
    run_git env dir args s =
      (.ok { o with command := joinSp args },
       { s with trace := s.trace ++ [⟨dir, args⟩] }) := by
  unfold run_git
  rw [h]

/-- Evaluating `M.bind (M.attempt x) f` always steps into `f` with the
reified result of `x`. -/
theorem M.attempt_bind {α β : Type} (x : M α) (f : Except String α → M β)
    (s : St) : ∃ r s1, x s = (r, s1) ∧ (M.bind (M.attempt x) f) s = f r s1 := by
  unfold M.bind M.attempt
  rcases hx : x s with ⟨r, s1⟩
  cases r with
  | ok a => exact ⟨.ok a, s1, rfl, rfl⟩
  | error e => exact ⟨.error e, s1, rfl, rfl⟩

theorem run_git_error (env : Env) (dir : Option String) (args : List String)
    (s : St) (e : String) (h : env.exec s.trace ⟨dir, args⟩ = .error e) :
    run_git env dir args s =
      (.error e, { s with trace := s.trace ++ [⟨dir, args⟩] }) := by
  unfold run_git
  rw [h]

/-- Evaluating `M.bind (M.attempt x) f` at a state where `x` is known to
evaluate to `(r, s1)` steps into `f r s1`. -/
theorem attempt_bind_eval {α β : Type} (x : M α) (f : Except String α → M β)
    (s : St) (r : Except String α) (s1 : St) (hx : x s = (r, s1)) :
    (M.bind (M.attempt x) f) s = f r s1 := by
  unfold M.bind M.attempt
  rw [hx]
  cases r <;> rfl

/-- `drop_stash` always issues exactly the `stash drop` call and leaves
the diagnostic log alone, whatever the oracle answers. -/
theorem drop_stash_state (env : Env) (dir ref : String) (s : St) :
    ∃ res, drop_stash env dir ref s =
      (res, { s with trace := s.trace ++ [⟨some dir, ["stash", "drop", ref]⟩] }) := by
  unfold drop_stash M.bind run_git M.pure M.throw
  cases h : env.exec s.trace ⟨some dir, ["stash", "drop", ref]⟩ with
  | ok o =>
    dsimp only
    simp only [status_set_command, combined_output_set_command]
    by_cases hs : o.status.success = true
    · exact ⟨.ok (), by rw [if_pos hs]⟩
    · exact ⟨.error ("git stash drop " ++ ref ++ " failed: " ++ combined_output o),
        by rw [if_neg hs]⟩
  | error e => exact ⟨.error e, rfl⟩

/-- A bound continuation that can never produce a given `.ok` value makes
the whole bind unable to produce it. -/
theorem bind_fst_ne {α β : Type} (x : M α) (f : α → M β) (s : St) (v : β)
    (h : ∀ a s1, ((f a) s1).1 ≠ .ok v) : ((M.bind x f) s).1 ≠ .ok v := by
  unfold M.bind
  rcases hx : x s with ⟨fst, s1⟩
  cases fst with
  | ok a => exact h a s1
  | error e => simp

/-! ### Claim theorems -/

/-- C7: if the destination directory and the worktree located for the
source branch canonicalize to the same directory, `run` fails with the
specific identical-directories message and the trace contains no `stash`
and no `switch` (hence no detach) invocation at all. -/
theorem c7_same_directory_aborts_without_mutation :
    (run envSameDir cli0 initSt).1 =
        .error "Source and destination directories are the same. Nothing to swap."
      ∧ hasCallPre (run envSameDir cli0 initSt).2 ["stash"] = false
      ∧ hasCallPre (run envSameDir cli0 initSt).2 ["switch"] = false
      ∧ (mainRun envSameDir cli0).1 = 1 := by
  refine ⟨rfl, rfl, rfl, rfl⟩

/-- C3: when switching the destination worktree to the source branch
fails, `run` aborts with the plain `switch_worktree` error: no critical
message is produced, no restore of either original branch is attempted
(no further `switch` call at either worktree), and no stash snapshot is
applied or deleted, although both worktrees were already detached. -/
theorem c3_switch_destination_fails_plain_abort :
    (run envSwitchDestFail cli0 initSt).1 =
        .error "Failed to switch worktree branch.\nCommand: git switch alpha\nstdout: \nstderr: no such branch"
      ∧ errContains (mainRun envSwitchDestFail cli0).2 "CRITICAL STATE" = false
      ∧ hasCall (run envSwitchDestFail cli0 initSt).2 ⟨some "/wt/dest", ["switch", "beta"]⟩ = false
      ∧ hasCall (run envSwitchDestFail cli0 initSt).2 ⟨some "/wt/src", ["switch", "beta"]⟩ = false
      ∧ hasCallPre (run envSwitchDestFail cli0 initSt).2 ["stash", "apply"] = false
      ∧ hasCallPre (run envSwitchDestFail cli0 initSt).2 ["stash", "drop"] = false
      ∧ hasCall (run envSwitchDestFail cli0 initSt).2 ⟨some "/wt/dest", ["switch", "--detach"]⟩ = true
      ∧ hasCall (run envSwitchDestFail cli0 initSt).2 ⟨some "/wt/src", ["switch", "--detach"]⟩ = true
      ∧ (mainRun envSwitchDestFail cli0).1 = 1 := by
  refine ⟨rfl, rfl, rfl, rfl, rfl, rfl, rfl, rfl, rfl⟩

/-- C1, counterexample: in the critical scenario (destination already
switched to the source branch `alpha`, switching the source worktree to
`beta` fails) the program does exit non-zero with the critical-state
message, but that message does not contain the command
`git -C '/wt/src' switch 'alpha'` — i.e. it does not name
`switch <src_branch>` in the *source* dir as the claim states; the
pairing of branch and directory is the other way around. -/
theorem c1_counterexample_pairing :
    (mainRun envCritical cli0).1 = 1
      ∧ errContains (mainRun envCritical cli0).2 "CRITICAL STATE" = true
      ∧ errContains (mainRun envCritical cli0).2 "git -C '/wt/src' switch 'alpha'" = false
      ∧ errContains (mainRun envCritical cli0).2 "git -C '/wt/dest' switch 'beta'" = false := by
  refine ⟨rfl, rfl, rfl, rfl⟩

/-- C1, amended: when switching the source worktree fails after the
destination's switch already succeeded, the program exits with a non-zero
status and a message literally naming both corrective commands —
`switch <src_branch>` in the *destination* dir and `switch <dest_branch>`
in the *source* dir — and issues no `stash apply` and no `stash drop`
call for either captured snapshot. -/
theorem c1_amended_critical_switch_failure :
    (mainRun envCritical cli0).1 = 1
      ∧ errContains (mainRun envCritical cli0).2 "git -C '/wt/dest' switch 'alpha'" = true
      ∧ errContains (mainRun envCritical cli0).2 "git -C '/wt/src' switch 'beta'" = true
      ∧ hasCallPre (mainRun envCritical cli0).2 ["stash", "apply"] = false
      ∧ hasCallPre (mainRun envCritical cli0).2 ["stash", "drop"] = false
      ∧ hasCall (mainRun envCritical cli0).2 ⟨some "/wt/dest", ["switch", "alpha"]⟩ = true
      ∧ hasCall (mainRun envCritical cli0).2 ⟨some "/wt/src", ["switch", "beta"]⟩ = true := by
  refine ⟨rfl, rfl, rfl, rfl, rfl, rfl, rfl⟩

set_option maxRecDepth 100000 in
/-- C2: if detaching the source worktree fails after the destination was
already detached then — whatever the restore switch answers (`r`), even
a spawn error — `run` reports the fixed detach-abort error, the restore
command `switch beta` is issued in the destination worktree, no stash
snapshot is applied or dropped, and the only branch-affecting (`switch`)
command ever issued in the source worktree is the failed detach itself,
whose oracle answer has a non-zero status. -/
theorem c2_detach_source_fails_best_effort_restore
    (r : Except String GitOutput) :
    (run (envDetachFail r) cli0 initSt).1 =
        .error "Failed to detach source worktree. Aborting."
      ∧ hasCall (run (envDetachFail r) cli0 initSt).2
          ⟨some "/wt/dest", ["switch", "beta"]⟩ = true
      ∧ hasCallPre (run (envDetachFail r) cli0 initSt).2 ["stash", "apply"] = false
      ∧ hasCallPre (run (envDetachFail r) cli0 initSt).2 ["stash", "drop"] = false
      ∧ (run (envDetachFail r) cli0 initSt).2.trace.filter
          (fun c => c.dir == some "/wt/src" && c.args.head? == some "switch")
          = [⟨some "/wt/src", ["switch", "--detach"]⟩]
      ∧ (envDetachFail r).exec [] ⟨some "/wt/src", ["switch", "--detach"]⟩
          = .ok (failOut "cannot detach")
      ∧ errContains (run (envDetachFail r) cli0 initSt).2
          "Attempting to restore '/wt/dest' to 'beta'..." = true
      ∧ (mainRun (envDetachFail r) cli0).1 = 1 := by
  cases r with
  | ok o => exact ⟨rfl, rfl, rfl, rfl, rfl, rfl, rfl, rfl⟩
  | error e => exact ⟨rfl, rfl, rfl, rfl, rfl, rfl, rfl, rfl⟩

/-- C4: a stash push whose combined trimmed output is exactly
"No local changes to save" is the no-snapshot outcome for any
environment, directory and branch (first conjunct); any other failing
capture aborts the swap with the capture error before any `switch`
(hence before any detach or switch) has been issued (second and third
conjuncts); and with the sentinel answer the whole swap still completes
successfully, treating the destination's snapshot as absent (fourth and
fifth conjuncts). -/
theorem c4_capture_sentinel_and_hard_failure :
    (∀ (env : Env) (dir branch : String) (s : St) (o : GitOutput),
        env.exec s.trace
            ⟨some dir, ["stash", "push", "-u", "-m", "swap-stash-" ++ branch]⟩ = .ok o →
        rustTrim (combined_output o) = "No local changes to save" →
        stash_worktree env dir branch s =
          (.ok none, { s with trace := s.trace ++
            [⟨some dir, ["stash", "push", "-u", "-m", "swap-stash-" ++ branch]⟩] }))
    ∧ (run envStashFail cli0 initSt).1 =
        .error "Failed to create stash in '/wt/dest': fatal: oops"
    ∧ hasCallPre (run envStashFail cli0 initSt).2 ["switch"] = false
    ∧ (run envNoLocalChanges cli0 initSt).1 = .ok ()
    ∧ (mainRun envNoLocalChanges cli0).1 = 0
    ∧ (mainRun envStashFail cli0).1 = 1 := by
  refine ⟨?_, rfl, rfl, rfl, rfl, rfl⟩
  intro env dir branch s o hexec hsent
  simp only [stash_worktree, M.bind, run_git, M.pure, M.throw, hexec,
    combined_output_set_command, hsent, if_pos]

/-- C4, witness for the universally quantified first conjunct: the
sentinel answer of `envNoLocalChanges` yields the no-snapshot outcome. -/
theorem c4_capture_sentinel_witness :
    envNoLocalChanges.exec initSt.trace
        ⟨some "/wt/dest", ["stash", "push", "-u", "-m", "swap-stash-" ++ "beta"]⟩
        = .ok (okOut "No local changes to save")
    ∧ rustTrim (combined_output (okOut "No local changes to save"))
        = "No local changes to save"
    ∧ stash_worktree envNoLocalChanges "/wt/dest" "beta" initSt =
        (.ok none, { initSt with trace := initSt.trace ++
          [⟨some "/wt/dest", ["stash", "push", "-u", "-m", "swap-stash-" ++ "beta"]⟩] }) :=
  ⟨rfl, rfl,
    c4_capture_sentinel_and_hard_failure.1 envNoLocalChanges "/wt/dest" "beta"
      initSt (okOut "No local changes to save") rfl rfl⟩

/-- C10: the "No local changes to save" sentinel of `stash_worktree` is
matched against the trimmed `combined_output` (trimmed stdout and stderr
concatenated) and tested before the exit status: a push answer whose
combined trimmed output equals the sentinel yields the no-snapshot
outcome even with a non-zero exit status (first conjunct), while a push
answer whose combined trimmed output differs from the sentinel is never
the no-snapshot outcome, whatever the later calls answer (second
conjunct). -/
theorem c10_sentinel_checked_before_status :
    (∀ (env : Env) (dir branch : String) (s : St) (o : GitOutput),
        env.exec s.trace
            ⟨some dir, ["stash", "push", "-u", "-m", "swap-stash-" ++ branch]⟩ = .ok o →
        o.status.success = false →
        rustTrim (combined_output o) = "No local changes to save" →
        stash_worktree env dir branch s =
          (.ok none, { s with trace := s.trace ++
            [⟨some dir, ["stash", "push", "-u", "-m", "swap-stash-" ++ branch]⟩] }))
    ∧ (∀ (env : Env) (dir branch : String) (s : St) (o : GitOutput),
        env.exec s.trace
            ⟨some dir, ["stash", "push", "-u", "-m", "swap-stash-" ++ branch]⟩ = .ok o →
        rustTrim (combined_output o) ≠ "No local changes to save" →
        (stash_worktree env dir branch s).1 ≠ .ok none) := by
  constructor
  · intro env dir branch s o hexec _ hsent
    simp only [stash_worktree, M.bind, run_git, M.pure, M.throw, hexec,
      combined_output_set_command, hsent, if_pos]
  · intro env dir branch s o hexec hsent
    simp only [stash_worktree]
    rw [M.bind_ok _ _ _ _ _ (run_git_ok env (some dir) _ s o hexec)]
    simp only [combined_output_set_command, status_set_command]
    rw [if_neg hsent]
    by_cases hs : o.status.success = true
    · rw [if_neg (by simp [hs])]
      refine bind_fst_ne _ _ _ _ ?_
      intro rev s1
      refine bind_fst_ne _ _ _ _ ?_
      intro reference s2
      simp [M.pure]
    · rw [if_pos (by simp [hs])]
      simp [M.throw]

/-- C10, witness: a sentinel answer with exit code 1 concretely yields
the no-snapshot outcome, and a non-sentinel failing answer concretely is
not the no-snapshot outcome. -/
theorem c10_sentinel_checked_before_status_witness :
    envSentinelNonZero.exec initSt.trace
        ⟨some "/wt/dest", ["stash", "push", "-u", "-m", "swap-stash-" ++ "beta"]⟩
        = .ok ⟨"No local changes to save", "", ⟨1⟩, ""⟩
    ∧ (⟨"No local changes to save", "", ⟨1⟩, ""⟩ : GitOutput).status.success = false
    ∧ rustTrim (combined_output ⟨"No local changes to save", "", ⟨1⟩, ""⟩)
        = "No local changes to save"
    ∧ stash_worktree envSentinelNonZero "/wt/dest" "beta" initSt =
        (.ok none, { initSt with trace := initSt.trace ++
          [⟨some "/wt/dest", ["stash", "push", "-u", "-m", "swap-stash-" ++ "beta"]⟩] })
    ∧ envStashFail.exec initSt.trace
        ⟨some "/wt/dest", ["stash", "push", "-u", "-m", "swap-stash-" ++ "beta"]⟩
        = .ok (failOut "fatal: oops")
    ∧ rustTrim (combined_output (failOut "fatal: oops")) ≠ "No local changes to save"
    ∧ (stash_worktree envStashFail "/wt/dest" "beta" initSt).1 ≠ .ok none :=
  ⟨rfl, rfl, rfl,
    c10_sentinel_checked_before_status.1 envSentinelNonZero "/wt/dest" "beta"
      initSt ⟨"No local changes to save", "", ⟨1⟩, ""⟩ rfl rfl rfl,
    rfl, by decide,
    c10_sentinel_checked_before_status.2 envStashFail "/wt/dest" "beta"
      initSt (failOut "fatal: oops") rfl (by decide)⟩

/-- What `main` appends to the diagnostic stream: the error message when
the run failed, nothing otherwise. -/
def errTail : Except String Unit → List String
  | .ok _ => []
  | .error e => [e]

/-- C8: stash-reapply steps can never fail the run — `apply_and_drop_stash`
always returns success (first conjunct); the process exits 0 exactly when
`run` succeeded (second conjunct); on failure the error message is
appended to the diagnostic stream (third conjunct); and concretely, when
applying the source's snapshot in the destination fails after both
switches succeeded, the run still exits 0, a per-worktree warning is
printed, and the failed snapshot is not dropped. -/
theorem c8_reapply_warnings_nonfatal_exit_codes :
    (∀ (env : Env) (dir branch : String) (stash : Option StashRecord) (s : St),
        ((apply_and_drop_stash env dir branch stash) s).1 = .ok ())
    ∧ (∀ (env : Env) (cli : Cli),
        (mainRun env cli).1 = 0 ↔ (run env cli initSt).1 = .ok ())
    ∧ (∀ (env : Env) (cli : Cli),
        (mainRun env cli).2.errLog =
          (run env cli initSt).2.errLog ++ errTail (run env cli initSt).1)
    ∧ (mainRun envApplyFail cli0).1 = 0
    ∧ errContains (mainRun envApplyFail cli0).2 "Warning: Failed to apply stash" = true
    ∧ errContains (mainRun envApplyFail cli0).2 "The stash has been kept." = true
    ∧ hasCall (mainRun envApplyFail cli0).2
        ⟨some "/wt/dest", ["stash", "drop", "stash@{0}"]⟩ = false
    ∧ hasCall (mainRun envApplyFail cli0).2
        ⟨some "/wt/dest", ["stash", "apply", "2222b"]⟩ = true := by
  refine ⟨?_, ?_, ?_, rfl, rfl, rfl, rfl, rfl⟩
  · intro env dir branch stash s
    cases stash with
    | none => rfl
    | some rec =>
      simp only [apply_and_drop_stash]
      obtain ⟨r, s1, -, hstep⟩ :=
        M.attempt_bind (run_git env (some dir) ["stash", "apply", rec.hash]) _ s
      rw [hstep]
      cases r with
      | error err => simp [eprintLn, M.bind, M.pure]
      | ok output =>
        dsimp only
        by_cases hs : output.status.success = true
        · rw [if_pos hs]
          cases href : rec.reference with
          | none => simp [eprintLn]
          | some reference =>
            dsimp only
            obtain ⟨r2, s2, -, hstep2⟩ :=
              M.attempt_bind (drop_stash env dir reference) _ s1
            rw [hstep2]
            cases r2 with
            | error e2 => simp [eprintLn]
            | ok a => simp [M.pure]
        · rw [if_neg hs]
          simp [eprintLn, M.bind, M.pure]
  · intro env cli
    unfold mainRun
    rcases hr : run env cli initSt with ⟨fst, s1⟩
    cases fst with
    | ok a => cases a; simp
    | error e => simp
  · intro env cli
    unfold mainRun
    rcases hr : run env cli initSt with ⟨fst, s1⟩
    cases fst with
    | ok a => cases a; simp [errTail]
    | error e => simp [errTail]

/-- C5: deletion of a snapshot happens only after its apply succeeded.
First conjunct: whenever a `stash drop` call appears among the calls
issued by `apply_and_drop_stash`, the oracle answered the `stash apply`
of that record (issued first, at the entry trace) with a zero exit
status, the dropped reference is the record's own positional reference,
and the issued calls are exactly the apply followed by the drop.
Second conjunct: if the apply answer has a non-zero status the only
issued call is the apply, with the two warning lines on the diagnostic
stream — the snapshot is never dropped.  Third conjunct: if the
positional reference is unknown the only issued call is the apply.
Fourth conjunct: if moreover the apply succeeded, the exact
"Could not determine stash reference" warning is surfaced on the
diagnostic stream.  Fifth conjunct: if the apply invocation itself
errors (spawn failure) the only issued call is the apply and the two
warning lines instructing manual resolution are surfaced. -/
theorem c5_drop_only_after_verified_apply :
    (∀ (env : Env) (dir branch : String) (rec : StashRecord) (s : St) (ref : String),
        (⟨some dir, ["stash", "drop", ref]⟩ : Call) ∈
          ((apply_and_drop_stash env dir branch (some rec)) s).2.trace.drop s.trace.length →
        ∃ o, env.exec s.trace ⟨some dir, ["stash", "apply", rec.hash]⟩ = .ok o
          ∧ o.status.success = true
          ∧ rec.reference = some ref
          ∧ ((apply_and_drop_stash env dir branch (some rec)) s).2.trace =
              s.trace ++ [⟨some dir, ["stash", "apply", rec.hash]⟩,
                          ⟨some dir, ["stash", "drop", ref]⟩])
    ∧ (∀ (env : Env) (dir branch : String) (rec : StashRecord) (s : St) (o : GitOutput),
        env.exec s.trace ⟨some dir, ["stash", "apply", rec.hash]⟩ = .ok o →
        o.status.success = false →
        ((apply_and_drop_stash env dir branch (some rec)) s).2.trace =
            s.trace ++ [⟨some dir, ["stash", "apply", rec.hash]⟩]
          ∧ ((apply_and_drop_stash env dir branch (some rec)) s).2.errLog =
              s.errLog ++
                ["Warning: Failed to apply stash " ++ rec.hash ++ " to '" ++ dir
                    ++ "'.\nOutput: " ++ combined_output o,
                 "The stash has been kept. Please resolve manually in '" ++ dir ++ "'."])
    ∧ (∀ (env : Env) (dir branch : String) (rec : StashRecord) (s : St),
        rec.reference = none →
        ((apply_and_drop_stash env dir branch (some rec)) s).2.trace =
          s.trace ++ [⟨some dir, ["stash", "apply", rec.hash]⟩])
    ∧ (∀ (env : Env) (dir branch : String) (rec : StashRecord) (s : St)
          (o : GitOutput),
        env.exec s.trace ⟨some dir, ["stash", "apply", rec.hash]⟩ = .ok o →
        o.status.success = true →
        rec.reference = none →
        ((apply_and_drop_stash env dir branch (some rec)) s).2.trace =
            s.trace ++ [⟨some dir, ["stash", "apply", rec.hash]⟩]
          ∧ ((apply_and_drop_stash env dir branch (some rec)) s).2.errLog =
              s.errLog ++
                ["Warning: Could not determine stash reference for " ++ rec.hash
                    ++ ". The stash remains in the list."])
    ∧ (∀ (env : Env) (dir branch : String) (rec : StashRecord) (s : St)
          (e : String),
        env.exec s.trace ⟨some dir, ["stash", "apply", rec.hash]⟩ = .error e →
        ((apply_and_drop_stash env dir branch (some rec)) s).2.trace =
            s.trace ++ [⟨some dir, ["stash", "apply", rec.hash]⟩]
          ∧ ((apply_and_drop_stash env dir branch (some rec)) s).2.errLog =
              s.errLog ++
                ["Warning: Failed to apply stash " ++ rec.hash ++ " to '" ++ dir
                    ++ "': " ++ e,
                 "The stash has been kept. Please resolve manually in '" ++ dir
                    ++ "'."]) := by
  refine ⟨?_, ?_, ?_, ?_, ?_⟩
  · intro env dir branch rec s ref hdrop
    simp only [apply_and_drop_stash] at hdrop ⊢
    cases hexec : env.exec s.trace ⟨some dir, ["stash", "apply", rec.hash]⟩ with
    | error e =>
      rw [attempt_bind_eval _ _ _ _ _ (run_git_error env (some dir) _ s e hexec)]
        at hdrop
      simp [M.bind, eprintLn, List.drop_left] at hdrop
    | ok o =>
      rw [attempt_bind_eval _ _ _ _ _ (run_git_ok env (some dir) _ s o hexec)]
        at hdrop ⊢
      dsimp only at hdrop ⊢
      by_cases hs : o.status.success = true
      · rw [if_pos hs] at hdrop ⊢
        cases href : rec.reference with
        | none =>
          rw [href] at hdrop
          dsimp only at hdrop
          simp [eprintLn, List.drop_left] at hdrop
        | some r2 =>
          rw [href] at hdrop
          dsimp only at hdrop
          obtain ⟨res, hds⟩ := drop_stash_state env dir r2
            { s with trace := s.trace ++ [⟨some dir, ["stash", "apply", rec.hash]⟩] }
          rw [attempt_bind_eval _ _ _ _ _ hds] at hdrop
          dsimp only
          rw [attempt_bind_eval _ _ _ _ _ hds]
          cases res with
          | error e2 =>
            simp only [eprintLn, M.pure] at hdrop ⊢
            simp [List.append_assoc, List.drop_left] at hdrop
            subst hdrop
            exact ⟨o, rfl, hs, rfl, by simp [List.append_assoc]⟩
          | ok a =>
            simp only [eprintLn, M.pure] at hdrop ⊢
            simp [List.append_assoc, List.drop_left] at hdrop
            subst hdrop
            exact ⟨o, rfl, hs, rfl, by simp [List.append_assoc]⟩
      · rw [if_neg hs] at hdrop
        simp [M.bind, eprintLn, List.drop_left] at hdrop
  · intro env dir branch rec s o hexec hfail
    simp only [apply_and_drop_stash]
    rw [attempt_bind_eval _ _ _ _ _ (run_git_ok env (some dir) _ s o hexec)]
    dsimp only
    simp only [status_set_command, combined_output_set_command]
    rw [if_neg (by simp [hfail])]
    simp [M.bind, eprintLn]
  · intro env dir branch rec s href
    simp only [apply_and_drop_stash]
    cases hexec : env.exec s.trace ⟨some dir, ["stash", "apply", rec.hash]⟩ with
    | error e =>
      rw [attempt_bind_eval _ _ _ _ _ (run_git_error env (some dir) _ s e hexec)]
      simp [M.bind, eprintLn]
    | ok o =>
      rw [attempt_bind_eval _ _ _ _ _ (run_git_ok env (some dir) _ s o hexec)]
      dsimp only
      by_cases hs : o.status.success = true
      · rw [if_pos hs, href]
        simp [eprintLn]
      · rw [if_neg hs]
        simp [M.bind, eprintLn]
  · intro env dir branch rec s o hexec hs href
    simp only [apply_and_drop_stash]
    rw [attempt_bind_eval _ _ _ _ _ (run_git_ok env (some dir) _ s o hexec)]
    dsimp only
    rw [if_pos hs, href]
    simp [eprintLn]
  · intro env dir branch rec s e hexec
    simp only [apply_and_drop_stash]
    rw [attempt_bind_eval _ _ _ _ _ (run_git_error env (some dir) _ s e hexec)]
    simp [M.bind, eprintLn]

/-- C5, witness: in the all-success environment the drop of the source's
snapshot is issued, and the first conjunct of the theorem then certifies
that its apply succeeded first; for a record with an unknown positional
reference the fourth conjunct yields the exact left-behind warning. -/
theorem c5_drop_only_after_verified_apply_witness :
    ((⟨some "/wt/dest", ["stash", "drop", "stash@{0}"]⟩ : Call) ∈
        ((apply_and_drop_stash envHappy "/wt/dest" "alpha"
          (some ⟨"2222b", some "stash@{0}", "alpha"⟩)) initSt).2.trace.drop
          initSt.trace.length)
    ∧ (∃ o, envHappy.exec initSt.trace
          ⟨some "/wt/dest", ["stash", "apply", "2222b"]⟩ = .ok o
        ∧ o.status.success = true
        ∧ (some "stash@{0}" : Option String) = some "stash@{0}"
        ∧ ((apply_and_drop_stash envHappy "/wt/dest" "alpha"
            (some ⟨"2222b", some "stash@{0}", "alpha"⟩)) initSt).2.trace =
            initSt.trace ++ [⟨some "/wt/dest", ["stash", "apply", "2222b"]⟩,
                             ⟨some "/wt/dest", ["stash", "drop", "stash@{0}"]⟩])
    ∧ envHappy.exec initSt.trace
        ⟨some "/wt/dest", ["stash", "apply", "2222b"]⟩ = .ok (okOut "")
    ∧ (okOut "").status.success = true
    ∧ (⟨"2222b", none, "alpha"⟩ : StashRecord).reference = none
    ∧ (((apply_and_drop_stash envHappy "/wt/dest" "alpha"
          (some ⟨"2222b", none, "alpha"⟩)) initSt).2.trace =
            initSt.trace ++ [⟨some "/wt/dest", ["stash", "apply", "2222b"]⟩]
        ∧ ((apply_and_drop_stash envHappy "/wt/dest" "alpha"
          (some ⟨"2222b", none, "alpha"⟩)) initSt).2.errLog =
            initSt.errLog ++
              ["Warning: Could not determine stash reference for 2222b. The stash remains in the list."]) :=
  ⟨by decide,
   c5_drop_only_after_verified_apply.1 envHappy "/wt/dest" "alpha"
     ⟨"2222b", some "stash@{0}", "alpha"⟩ initSt "stash@{0}" (by decide),
   rfl, rfl, rfl,
   c5_drop_only_after_verified_apply.2.2.2.1 envHappy "/wt/dest" "alpha"
     ⟨"2222b", none, "alpha"⟩ initSt (okOut "") rfl rfl rfl⟩

theorem rustTrim_empty : rustTrim "" = "" := rfl

theorem checkRec_none_none (env : Env) (dir branch : String) :
    checkRec env dir branch (none, none) = none := by
  simp [checkRec]

/-- The loop of `find_worktree_for_branch` computes the first-match
lookup over the record sequence, for any starting accumulator. -/
theorem findLoop_eq_lookupPairs (env : Env) (dir branch : String) :
    ∀ (ls : List String) (acc : Option String × Option String),
      findLoop env dir branch ls acc =
        lookupPairs env dir branch ((recordsAux acc ls).filterMap pairOf) := by
  intro ls
  induction ls with
  | nil =>
    intro acc
    rcases acc with ⟨wp, bn⟩
    cases wp with
    | none =>
      cases bn with
      | none => simp [findLoop, recordsAux, lookupPairs, checkRec, pairOf]
      | some b =>
        by_cases hb : b = branch
        · subst hb
          simp [findLoop, recordsAux, lookupPairs, checkRec, pairOf]
        · simp [findLoop, recordsAux, lookupPairs, checkRec, pairOf, hb]
    | some p =>
      cases bn with
      | none => simp [findLoop, recordsAux, lookupPairs, checkRec, pairOf]
      | some b =>
        by_cases hb : b = branch
        · subst hb
          simp [findLoop, recordsAux, lookupPairs, checkRec, pairOf]
        · simp [findLoop, recordsAux, lookupPairs, checkRec, pairOf, hb]
  | cons line rest ih =>
    intro acc
    by_cases hblank : rustTrim line = ""
    · rcases acc with ⟨wp, bn⟩
      cases wp with
      | none =>
        cases bn with
        | none =>
          simp only [findLoop, recordsAux, hblank, if_pos, checkRec_none_none]
          simpa [checkRec, pairOf] using ih (none, none)
        | some b =>
          by_cases hb : b = branch
          · subst hb
            simp only [findLoop, recordsAux, hblank, if_pos]
            simpa [checkRec, pairOf] using ih (none, none)
          · simp only [findLoop, recordsAux, hblank, if_pos]
            simpa [checkRec, pairOf, hb] using ih (none, none)
      | some p =>
        cases bn with
        | none =>
          simp only [findLoop, recordsAux, hblank, if_pos]
          simpa [checkRec, pairOf] using ih (none, none)
        | some b =>
          by_cases hb : b = branch
          · subst hb
            simp [findLoop, recordsAux, hblank, checkRec, pairOf, lookupPairs]
          · simp only [findLoop, recordsAux, hblank, if_pos]
            simpa [checkRec, pairOf, hb, lookupPairs] using ih (none, none)
    · simp only [findLoop, recordsAux, hblank, if_neg, ite_false]
      exact ih (updateRec acc line)

/-- A terminating blank line is redundant: the loop treats the trailing
accumulated record exactly like a blank-line-terminated one. -/
theorem findLoop_trailing_blank (env : Env) (dir branch : String) :
    ∀ (ls : List String) (acc : Option String × Option String),
      findLoop env dir branch (ls ++ [""]) acc =
        findLoop env dir branch ls acc := by
  intro ls
  induction ls with
  | nil =>
    intro acc
    cases hc : checkRec env dir branch acc with
    | some r => simp [findLoop, rustTrim_empty, hc]
    | none => simp [findLoop, rustTrim_empty, hc, checkRec_none_none]
  | cons line rest ih =>
    intro acc
    by_cases hblank : rustTrim line = ""
    · cases hc : checkRec env dir branch acc with
      | some r => simp [findLoop, hblank, hc]
      | none => simp [findLoop, hblank, hc, ih (none, none)]
    · simp [findLoop, hblank, ih (updateRec acc line)]

/-- C6: the branch-to-worktree lookup returns exactly the
existence-checked path of the first record (in encounter order) whose
`refs/heads/`-normalized branch equals the target (first conjunct,
stated as equality with the first-match lookup over the `(path, branch)`
pairs of the record sequence), and a trailing record without a
terminating blank line is handled identically to a blank-line-terminated
one (second conjunct); concretely the two-worktree listing without a
trailing blank line resolves branch `alpha` to `/wt/src` (third
conjunct). -/
theorem c6_first_match_and_trailing_record :
    (∀ (env : Env) (dir branch : String) (input : String),
        findLoop env dir branch (rustLines input) (none, none) =
          lookupPairs env dir branch (wtPairs (rustLines input)))
    ∧ (∀ (env : Env) (dir branch : String) (ls : List String)
          (acc : Option String × Option String),
        findLoop env dir branch (ls ++ [""]) acc =
          findLoop env dir branch ls acc)
    ∧ findLoop envHappy "/wt/dest" "alpha" (rustLines porcelainBase) (none, none)
        = .ok "/wt/src" := by
  refine ⟨?_, ?_, rfl⟩
  · intro env dir branch input
    exact findLoop_eq_lookupPairs env dir branch (rustLines input) (none, none)
  · intro env dir branch ls acc
    exact findLoop_trailing_blank env dir branch ls acc

theorem mem_insertSorted (a x : String) :
    ∀ l : List String, (x ∈ insertSorted a l ↔ x = a ∨ x ∈ l) := by
  intro l
  induction l with
  | nil => simp [insertSorted]
  | cons b t ih =>
    by_cases h1 : a.data < b.data
    · simp [insertSorted, h1]
    · by_cases h2 : a = b
      · subst h2
        simp [insertSorted, h1]
      · simp only [insertSorted, if_neg h1, if_neg h2, List.mem_cons, ih]
        tauto

theorem pairwise_insertSorted (a : String) :
    ∀ l : List String, l.Pairwise (· < ·) →
      (insertSorted a l).Pairwise (· < ·) := by
  intro l
  induction l with
  | nil =>
    intro _
    simp [insertSorted]
  | cons b t ih =>
    intro h
    rcases List.pairwise_cons.mp h with ⟨hb, ht⟩
    by_cases h1 : a.data < b.data
    · rw [insertSorted, if_pos h1]
      have hab : a < b := String.lt_iff_toList_lt.mpr h1
      refine List.pairwise_cons.mpr ⟨?_, h⟩
      intro x hx
      rcases List.mem_cons.mp hx with rfl | hxt
      · exact hab
      · exact lt_trans hab (hb x hxt)
    · by_cases h2 : a = b
      · rw [insertSorted, if_neg h1, if_pos h2]
        exact h
      · have hba : b < a := by
          rcases lt_trichotomy a b with h | h | h
          · exact absurd (String.lt_iff_toList_lt.mp h) h1
          · exact absurd h h2
          · exact h
        rw [insertSorted, if_neg h1, if_neg h2]
        refine List.pairwise_cons.mpr ⟨?_, ih ht⟩
        intro x hx
        rcases (mem_insertSorted a x t).mp hx with rfl | hxt
        · exact hba
        · exact hb x hxt

theorem pairwise_parse_foldl :
    ∀ (ls : List String) (acc : List String), acc.Pairwise (· < ·) →
      (ls.foldl
        (fun acc line =>
          match branchOf line with
          | none => acc
          | some b => insertSorted b acc)
        acc).Pairwise (· < ·) := by
  intro ls
  induction ls with
  | nil =>
    intro acc hacc
    simpa using hacc
  | cons line rest ih =>
    intro acc hacc
    simp only [List.foldl_cons]
    cases hb : branchOf line with
    | none => exact ih acc hacc
    | some b => exact ih (insertSorted b acc) (pairwise_insertSorted b acc hacc)

theorem mem_parse_foldl :
    ∀ (ls : List String) (acc : List String) (x : String),
      (x ∈ ls.foldl
        (fun acc line =>
          match branchOf line with
          | none => acc
          | some b => insertSorted b acc)
        acc
      ↔ x ∈ acc ∨ ∃ line ∈ ls, branchOf line = some x) := by
  intro ls
  induction ls with
  | nil => simp
  | cons line rest ih =>
    intro acc x
    simp only [List.foldl_cons, List.mem_cons]
    cases hb : branchOf line with
    | none =>
      rw [ih]
      constructor
      · intro h
        rcases h with h | ⟨l, hl, hbl⟩
        · exact Or.inl h
        · exact Or.inr ⟨l, Or.inr hl, hbl⟩
      · intro h
        rcases h with h | ⟨l, hl | hl, hbl⟩
        · exact Or.inl h
        · rw [hl] at hbl
          rw [hb] at hbl
          cases hbl
        · exact Or.inr ⟨l, hl, hbl⟩
    | some b =>
      rw [ih, mem_insertSorted]
      constructor
      · intro h
        rcases h with (rfl | h) | ⟨l, hl, hbl⟩
        · exact Or.inr ⟨line, Or.inl rfl, hb⟩
        · exact Or.inl h
        · exact Or.inr ⟨l, Or.inr hl, hbl⟩
      · intro h
        rcases h with h | ⟨l, hl | hl, hbl⟩
        · exact Or.inl (Or.inr h)
        · rw [hl] at hbl
          rw [hb] at hbl
          cases hbl
          exact Or.inl (Or.inl rfl)
        · exact Or.inr ⟨l, hl, hbl⟩

/-- C9: branch enumeration is strictly sorted (first conjunct), hence
duplicate-free (second conjunct); a name is enumerated exactly when some
line of the listing is a `branch ` line with that nonempty normalized
name (third conjunct); and the repository's own duplicated-input fixture
evaluates to the deduplicated sorted pair (fourth conjunct). -/
theorem c9_branch_enumeration_sorted_dedup :
    (∀ s : String, (parse_worktree_branches s).Pairwise (· < ·))
    ∧ (∀ s : String, (parse_worktree_branches s).Nodup)
    ∧ (∀ (s : String) (b : String),
        b ∈ parse_worktree_branches s ↔
          ∃ line ∈ rustLines s, branchOf line = some b)
    ∧ parse_worktree_branches
        "branch refs/heads/main\nbranch refs/heads/main\nbranch feature/b\nbranch   \n"
        = ["feature/b", "main"] := by
  refine ⟨?_, ?_, ?_, by decide⟩
  · intro s
    exact pairwise_parse_foldl (rustLines s) [] (by simp)
  · intro s
    exact List.Pairwise.imp (fun h => ne_of_lt h)
      (pairwise_parse_foldl (rustLines s) [] (by simp))
  · intro s b
    simpa using mem_parse_foldl (rustLines s) [] b

end SwapWorktree
